import Mathlib

/-!
Shallow embedding of the Peplink warranty checker (Llama-Networks/peplink-warranty-checker-ui).

Covered source:
- `peplinkCheck.js` : `runWarrantyCheck` (token exchange, organization listing,
  per-organization device listing, 90-day filter, CSV assembly);
- `cryptoUtils.js` (shipped inside `routes/panelRoutes.js`) : `encrypt` / `decrypt`
  around an AES-256-CBC library call, abstracted here as function parameters;
- `routes/loginRoutes.js` : `POST /login/otp` (OTP verification) state transition;
- the `POST /login/resend` cooldown route, modelled from the spec (see below).

Time is modelled as integer milliseconds since the Unix epoch, matching the
JavaScript `Date` arithmetic of the source.
-/

namespace PeplinkChecker

/-- Milliseconds in one day, the JS constant `1000*60*60*24`. -/
def MS_PER_DAY : Int := 86400000

/-- JS `Math.ceil` of the real quotient `a / b` for an integer `a` and a positive
integer `b` (the source divides millisecond differences by `MS_PER_DAY`). -/
def ceilDiv (a b : Int) : Int := -((-a).fdiv b)

/-- Gregorian leap-year test. -/
def isLeapYear (y : Int) : Bool :=
  y % 4 == 0 && (y % 100 != 0 || y % 400 == 0)

/-- Number of days in month `m` of year `y`. -/
def daysInMonth (y m : Int) : Int :=
  if m == 2 then (if isLeapYear y then 29 else 28)
  else if m == 4 || m == 6 || m == 9 || m == 11 then 30
  else 31

/-- Days from 1970-01-01 to the proleptic Gregorian date `y-m-d` (the standard
civil-from-days conversion); for valid dates this matches
`Date.UTC(y, m-1, d) / 86400000` in JS. -/
def daysFromCivil (y m d : Int) : Int :=
  let yAdj := if m ≤ 2 then y - 1 else y
  let era := yAdj.fdiv 400
  let yoe := yAdj - era * 400
  let mp := (m + 9) % 12
  let doy := (153 * mp + 2).fdiv 5 + d - 1
  let doe := yoe * 365 + yoe.fdiv 4 - yoe.fdiv 100 + doy
  era * 146097 + doe - 719468

/-- Numeric value of an ASCII digit character. -/
def charDigitVal (c : Char) : Int := (c.toNat : Int) - 48

/-- JS `new Date(s).getTime()` for a string in strict ISO `YYYY-MM-DD` form:
UTC midnight of that calendar date in epoch milliseconds. `none` models an
invalid date (JS `NaN`, for which the `<=` comparison in the filter is false,
so the device is excluded). The source feeds this `device.expiry_date.substring(0,10)`;
we model the strict 10-character ISO date form the spec describes. -/
def parseDateMs (s : String) : Option Int :=
  match s.toList with
  | [y1, y2, y3, y4, h1, m1, m2, h2, d1, d2] =>
    if h1 == '-' && h2 == '-'
        && y1.isDigit && y2.isDigit && y3.isDigit && y4.isDigit
        && m1.isDigit && m2.isDigit && d1.isDigit && d2.isDigit then
      let y := 1000 * charDigitVal y1 + 100 * charDigitVal y2
                + 10 * charDigitVal y3 + charDigitVal y4
      let mo := 10 * charDigitVal m1 + charDigitVal m2
      let dy := 10 * charDigitVal d1 + charDigitVal d2
      if 1 ≤ mo && mo ≤ 12 && 1 ≤ dy && dy ≤ daysInMonth y mo then
        some (daysFromCivil y mo dy * MS_PER_DAY)
      else none
    else none
  | _ => none

/-- A device record from the upstream JSON. Absent `sn` or `expiry_date` is
modelled as `""` (the source uses the falsy check `!device.sn || !device.expiry_date`). -/
structure Device where
  sn : String
  expiry_date : String
  expired : Bool
deriving DecidableEq, Repr

/-- An organization record from the upstream JSON. -/
structure Org where
  id : String
  name : String
deriving DecidableEq, Repr

/-- The upstream responses consumed by one `runWarrantyCheck` run. `orgData` and
`devData` model the `data` key of the JSON bodies; `none` models a missing key,
which the source turns into `[]` via `|| []`. -/
structure Upstream where
  tokenOk : Bool
  tokenStatusText : String
  access_token : Option String
  orgOk : Bool
  orgStatusText : String
  orgData : Option (List Org)
  devOk : String → Bool
  devData : String → Option (List Device)

/-- The serial normalization `device.sn.replace(/[^a-zA-Z0-9]/g, "")`:
keep exactly the ASCII letters and digits. -/
def normalizeSerial (s : String) : String :=
  String.mk (s.toList.filter (fun c => c.isAlpha || c.isDigit))

/-- The fixed CSV header line of the report. -/
def csvHeader : String :=
  "org_name,serial_number,warranty_expiry_date,days_until_expiry,is_expired"

/-- Wrap a CSV field in double quotes, as the source template does. -/
def quoteField (s : String) : String := "\"" ++ s ++ "\""

/-- The body of the inner device loop of `runWarrantyCheck`: `none` when the
device is skipped (missing serial or expiry date, unparsable date, or expiry
after the cutoff), otherwise the CSV line pushed onto `csvLines`. -/
def deviceRow (now cutoff : Int) (orgName : String) (device : Device) : Option String :=
  if device.sn == "" || device.expiry_date == "" then none
  else
    let serial := normalizeSerial device.sn
    let expiryDateStr := device.expiry_date.take 10
    match parseDateMs expiryDateStr with
    | none => none
    | some expiryDate =>
      if expiryDate ≤ cutoff then
        let daysLeft := ceilDiv (expiryDate - now) MS_PER_DAY
        let isExpired := if device.expired then "YES" else "NO"
        some (quoteField orgName ++ "," ++ quoteField serial ++ ","
              ++ quoteField expiryDateStr ++ "," ++ quoteField (toString daysLeft)
              ++ "," ++ quoteField isExpired)
      else none

/-- The rows contributed by one organization: a failed device fetch is logged and
the organization skipped (`continue`), contributing no rows. -/
def orgRows (now cutoff : Int) (u : Upstream) (org : Org) : List String :=
  if !(u.devOk org.id) then []
  else ((u.devData org.id).getD []).filterMap (deviceRow now cutoff org.name)

/-- All CSV data rows of the run, in organization-then-device iteration order. -/
def reportRows (now : Int) (u : Upstream) (orgs : List Org) : List String :=
  orgs.flatMap (orgRows now (now + 90 * MS_PER_DAY) u)

/-- The `runWarrantyCheck(clientId, clientSecret)` orchestration of
`peplinkCheck.js`, with the network abstracted into `u` and the clock into
`now`; `Except.error` models a thrown `Error` with the same message. -/
def runWarrantyCheck (now : Int) (u : Upstream) : Except String String :=
  if !u.tokenOk then .error ("Failed to get token: " ++ u.tokenStatusText)
  else
    match u.access_token with
    | none => .error "No access_token in token response"
    | some _ =>
      if !u.orgOk then .error ("Failed to fetch orgs: " ++ u.orgStatusText)
      else
        let orgs := u.orgData.getD []
        if orgs.isEmpty then .ok (csvHeader ++ "\n(No organizations found)")
        else
          let rows := reportRows now u orgs
          if rows.isEmpty then
            .ok (csvHeader ++ "\n(No devices expiring within 90 days)")
          else .ok (String.intercalate "\n" (csvHeader :: rows))

/-- A fully successful upstream with the given organizations and device lists. -/
def mkUpstream (orgs : List Org) (devs : String → List Device) : Upstream :=
  { tokenOk := true, tokenStatusText := "", access_token := some "tok",
    orgOk := true, orgStatusText := "", orgData := some orgs,
    devOk := fun _ => true, devData := fun oid => some (devs oid) }

/-- Response of `POST /login/otp` in `routes/loginRoutes.js`. -/
inductive OtpResp
  | missingFields
  | userNotFound
  | invalidOtp
  | redirectWarrantyCheck
deriving DecidableEq, Repr

/-- The state touched by the OTP verification route: the `otp` column of the
`users` table keyed by email (`none` = no row for that email), and the
session field `userEmail`. -/
structure AuthState where
  otpOf : String → Option String
  sessionEmail : Option String

/-- The SQL `UPDATE users SET otp = v WHERE email = e` on a row known to exist. -/
def setOtp (otpOf : String → Option String) (email v : String) :
    String → Option String :=
  fun e => if e == email then some v else otpOf e

/-- The `POST /login/otp` handler: missing fields rejected first, then the row
lookup, then the exact string comparison; on success the session is set and the
stored OTP cleared to the empty string. Absent body fields are modelled as `""`
(the JS falsy check `!email || !otp`). -/
def postLoginOtp (st : AuthState) (email otp : String) : OtpResp × AuthState :=
  if email == "" || otp == "" then (.missingFields, st)
  else
    match st.otpOf email with
    | none => (.userNotFound, st)
    | some stored =>
      if stored != otp then (.invalidOtp, st)
      else (.redirectWarrantyCheck,
            { otpOf := setOtp st.otpOf email "", sessionEmail := some email })

/-- Response of the resend route. -/
inductive ResendResp
  | noEmail
  | userNotFound
  | cooldownActive (remainSecs : Int)
  | success
deriving DecidableEq, Repr

/-- State touched by the resend route: the `otp` column and the session field
`nextResendAllowedTime` (epoch ms, `0` when never set). -/
structure ResendState where
  otpOf : String → Option String
  nextResendAllowedTime : Int

/-- Modelled from the spec: the `resendCode` route (`POST /login/resend`) is not
present in `routes/loginRoutes.js` as shipped; per the spec it fails with
`CooldownActive` when called before the previously recorded resend deadline
(reporting the remaining whole seconds), and otherwise behaves like
`requestCode` (stores a fresh code on the existing row) and sets a new deadline
a fixed 60 seconds from now. -/
def postLoginResend (st : ResendState) (email : String) (now : Int)
    (newCode : String) : ResendResp × ResendState :=
  if email == "" then (.noEmail, st)
  else
    match st.otpOf email with
    | none => (.userNotFound, st)
    | some _ =>
      if now < st.nextResendAllowedTime then
        (.cooldownActive ((st.nextResendAllowedTime - now).fdiv 1000), st)
      else
        (.success,
         { otpOf := setOtp st.otpOf email newCode,
           nextResendAllowedTime := now + 60 * 1000 })

/-- The `encrypt(plaintext)` of `cryptoUtils.js`: empty or absent plaintext
yields `""` with no ciphertext produced; otherwise the AES-256-CBC encryption
under the fixed key/IV, abstracted as the library function `aesEnc` (the fixed
key and IV have valid lengths, so the library call itself does not throw). -/
def encrypt (aesEnc : String → String) (plaintext : String) : String :=
  if plaintext == "" then "" else aesEnc plaintext

/-- The `decrypt(ciphertext)` of `cryptoUtils.js`: empty or absent ciphertext
yields `""`; otherwise the AES-256-CBC decryption `aesDec`, where `none` models
a thrown cryptographic error, caught and coerced to `""`. -/
def decrypt (aesDec : String → Option String) (ciphertext : String) : String :=
  if ciphertext == "" then "" else (aesDec ciphertext).getD ""

/-! ## Theorems -/

/-- C3: for every plaintext `P`, `decrypt (encrypt P) = P`, and empty or absent
input yields the empty string from both `encrypt` and `decrypt` rather than an
error. The AES-256-CBC library is abstracted as a pair `aesEnc`/`aesDec` that
round-trips and produces non-empty ciphertext on non-empty plaintext. -/
theorem c3_field_roundtrip (aesEnc : String → String) (aesDec : String → Option String)
    (hrt : ∀ p, aesDec (aesEnc p) = some p)
    (hne : ∀ p, p ≠ "" → aesEnc p ≠ "") :
    (∀ p, decrypt aesDec (encrypt aesEnc p) = p) ∧
    encrypt aesEnc "" = "" ∧ decrypt aesDec "" = "" := by
  refine ⟨fun p => ?_, rfl, rfl⟩
  by_cases hp : p = ""
  · subst hp; rfl
  · have he := hne p hp
    simp [encrypt, decrypt, hp, he, hrt p]

theorem c3_field_roundtrip_witness :
    decrypt some (encrypt id "client-secret-123") = "client-secret-123" :=
  (c3_field_roundtrip id some (fun _ => rfl) (fun _ h => h)).1 "client-secret-123"

/-- C8: on any ciphertext for which the AES decryption fails (modelled by
`aesDec ct = none`), `decrypt` returns the empty string instead of propagating
the error, the same value it returns for a blank field — so callers cannot
distinguish the two. -/
theorem c8_decrypt_failure_swallowed (aesDec : String → Option String) (ct : String)
    (hfail : aesDec ct = none) :
    decrypt aesDec ct = "" ∧ decrypt aesDec "" = "" := by
  refine ⟨?_, rfl⟩
  by_cases hc : ct = ""
  · subst hc; rfl
  · simp [decrypt, hc, hfail]

theorem c8_decrypt_failure_swallowed_witness :
    decrypt (fun _ => none) "corrupt-base64" = ""
      ∧ decrypt (fun _ => none) "" = "" :=
  c8_decrypt_failure_swallowed (fun _ => none) "corrupt-base64" rfl

/-- C9: serial normalization keeps exactly the ASCII letters and digits: it is
idempotent, every character of its output is an ASCII letter or digit, and
`normalizeSerial "AB-12:34" = "AB1234"`. -/
theorem c9_serial_normalization (s : String) :
    normalizeSerial (normalizeSerial s) = normalizeSerial s ∧
    (∀ c ∈ (normalizeSerial s).toList, (c.isAlpha || c.isDigit) = true) ∧
    normalizeSerial "AB-12:34" = "AB1234" := by
  refine ⟨?_, ?_, by decide⟩
  · show String.mk (List.filter _ (String.toList (String.mk (List.filter _ s.toList)))) = _
    rw [show ∀ l : List Char, String.toList (String.mk l) = l from fun _ => rfl]
    rw [List.filter_filter]
    simp only [Bool.and_self]
    rfl
  · intro c hc
    have hc' : c ∈ List.filter (fun c => c.isAlpha || c.isDigit) s.toList := hc
    simpa using List.of_mem_filter hc'

theorem c9_serial_normalization_witness :
    ('A'.isAlpha || 'A'.isDigit) = true :=
  (c9_serial_normalization "AB-12:34").2.1 'A' (by decide)

/-- C4: a successful OTP verification establishes the session, clears the stored
code to the empty string in the same step (single-use), and a second attempt
with the same code then fails with the invalid-OTP response. -/
theorem c4_otp_single_use (st : AuthState) (email code : String)
    (hemail : email ≠ "") (hcode : code ≠ "")
    (hstored : st.otpOf email = some code) :
    (postLoginOtp st email code).1 = .redirectWarrantyCheck ∧
    (postLoginOtp st email code).2.sessionEmail = some email ∧
    (postLoginOtp st email code).2.otpOf email = some "" ∧
    (postLoginOtp (postLoginOtp st email code).2 email code).1 = .invalidOtp := by
  have h1 : postLoginOtp st email code
      = (.redirectWarrantyCheck,
         { otpOf := setOtp st.otpOf email "", sessionEmail := some email }) := by
    simp [postLoginOtp, hemail, hcode, hstored]
  refine ⟨by rw [h1], by rw [h1], ?_, ?_⟩
  · rw [h1]; simp [setOtp]
  · rw [h1]
    simp [postLoginOtp, setOtp, hemail, hcode, Ne.symm hcode]

theorem c4_otp_single_use_witness :
    (postLoginOtp
        ⟨fun e => if e == "user@example.com" then some "A1B2C3D4" else none, none⟩
        "user@example.com" "A1B2C3D4").1 = .redirectWarrantyCheck :=
  (c4_otp_single_use
    ⟨fun e => if e == "user@example.com" then some "A1B2C3D4" else none, none⟩
    "user@example.com" "A1B2C3D4" (by decide) (by decide) (by decide)).1

/-- C10: when the stored OTP field of an account is the empty string (never
issued or already consumed), verification fails for every submitted code and
leaves the state unchanged: empty submissions are rejected before the
comparison, and non-empty ones compare unequal to the empty stored value, so
the success branch is unreachable. -/
theorem c10_empty_otp_rejects (st : AuthState) (email code : String)
    (hstored : st.otpOf email = some "") :
    (postLoginOtp st email code).1 ≠ .redirectWarrantyCheck ∧
    (postLoginOtp st email code).2 = st ∧
    (code = "" → (postLoginOtp st email code).1 = .missingFields) := by
  by_cases hc : code = ""
  · subst hc; simp [postLoginOtp]
  · by_cases he : email = ""
    · subst he; simp [postLoginOtp, hc]
    · have h1 : postLoginOtp st email code = (.invalidOtp, st) := by
        simp [postLoginOtp, he, hc, hstored, Ne.symm hc]
      rw [h1]
      simp [hc]

theorem c10_empty_otp_rejects_witness :
    (postLoginOtp ⟨fun _ => some "", none⟩ "user@example.com" "GUESS123").1
      ≠ OtpResp.redirectWarrantyCheck :=
  (c10_empty_otp_rejects ⟨fun _ => some "", none⟩ "user@example.com" "GUESS123" rfl).1

/-- Ceiling division of `k * D - n` by a positive `D`: the fractional time of
day of `n` is absorbed by the ceiling, leaving whole days. -/
theorem ceilDiv_mul_sub (k n D : Int) (hD : 0 < D) :
    ceilDiv (k * D - n) D = k - n.fdiv D := by
  unfold ceilDiv
  have h1 : -(k * D - n) = n + (-k) * D := by ring
  rw [h1, Int.fdiv_eq_ediv _ (le_of_lt hD),
      Int.add_mul_ediv_right _ _ (ne_of_gt hD),
      ← Int.fdiv_eq_ediv _ (le_of_lt hD)]
  ring

/-- C2: the days-until-expiry the code computes, `ceil((expiry - now) / 1 day)`
with `expiry` at midnight (`expiry = k * MS_PER_DAY`) and `now` untruncated,
equals the value of the same formula with the time of day of `now` first
truncated to midnight — so the produced field matches the spec formula; and in
the end-to-end scenario (organization `Acme`, device
`sn = "CD-99"`, `expiry_date = "2024-12-05"`, `expired = false`, now =
2024-12-01) the output is the header plus the row
`"Acme","CD99","2024-12-05","4","NO"`. -/
theorem c2_days_until_expiry (now k : Int) :
    ceilDiv (k * MS_PER_DAY - now) MS_PER_DAY
      = ceilDiv (k * MS_PER_DAY - MS_PER_DAY * (now.fdiv MS_PER_DAY)) MS_PER_DAY ∧
    parseDateMs "2024-12-01" = some 1733011200000 ∧
    runWarrantyCheck 1733011200000
        (mkUpstream [⟨"1", "Acme"⟩] (fun _ => [⟨"CD-99", "2024-12-05", false⟩]))
      = .ok (csvHeader ++ "\n\"Acme\",\"CD99\",\"2024-12-05\",\"4\",\"NO\"") := by
  have hD : (0 : Int) < MS_PER_DAY := by decide
  refine ⟨?_, by decide, by rfl⟩
  rw [ceilDiv_mul_sub _ _ _ hD, ceilDiv_mul_sub _ _ _ hD,
      Int.mul_fdiv_cancel_left _ (ne_of_gt hD)]

/-- C5: a resend issued at or after the recorded deadline succeeds and resets
the deadline to 60 seconds after its own time; a second resend before 60
seconds have elapsed since that issuance fails with the cooldown response and
changes nothing, while one at or after the new deadline succeeds again and
resets the deadline once more. -/
theorem c5_resend_cooldown (st : ResendState) (email : String) (t0 t1 : Int)
    (code0 code1 : String) (hemail : email ≠ "")
    (huser : (st.otpOf email).isSome)
    (hok : st.nextResendAllowedTime ≤ t0) :
    (postLoginResend st email t0 code0).1 = .success ∧
    (postLoginResend st email t0 code0).2.nextResendAllowedTime = t0 + 60 * 1000 ∧
    (t1 < t0 + 60 * 1000 →
      postLoginResend (postLoginResend st email t0 code0).2 email t1 code1
        = (.cooldownActive ((t0 + 60 * 1000 - t1).fdiv 1000),
           (postLoginResend st email t0 code0).2)) ∧
    (t0 + 60 * 1000 ≤ t1 →
      (postLoginResend (postLoginResend st email t0 code0).2 email t1 code1).1
        = .success ∧
      (postLoginResend (postLoginResend st email t0 code0).2
          email t1 code1).2.nextResendAllowedTime = t1 + 60 * 1000) := by
  obtain ⟨c, hc⟩ := Option.isSome_iff_exists.mp huser
  have h0 : postLoginResend st email t0 code0
      = (.success, { otpOf := setOtp st.otpOf email code0,
                     nextResendAllowedTime := t0 + 60 * 1000 }) := by
    simp [postLoginResend, hemail, hc, not_lt.mpr hok]
  have hlook : setOtp st.otpOf email code0 email = some code0 := by simp [setOtp]
  refine ⟨by rw [h0], by rw [h0], ?_, ?_⟩
  · intro hlt
    have hlt' : t1 < t0 + 60000 := by omega
    rw [h0]
    simp [postLoginResend, hemail, hlook, hlt']
  · intro hge
    have hge' : ¬(t1 < t0 + 60000) := by omega
    rw [h0]
    simp [postLoginResend, hemail, hlook, hge']

theorem c5_resend_cooldown_witness :
    (postLoginResend ⟨fun _ => some "OLD1CODE", 0⟩ "user@example.com" 1000 "NEW1CODE").1
      = ResendResp.success :=
  (c5_resend_cooldown ⟨fun _ => some "OLD1CODE", 0⟩ "user@example.com" 1000 62000
    "NEW1CODE" "NEW2CODE" (by decide) rfl (by decide)).1

/-- C6: with the token exchange and organization listing succeeding, a run with
zero organizations returns exactly the header plus the no-organizations
sentinel, and a run with organizations but zero qualifying rows returns exactly
the header plus the no-matches sentinel — in both cases a normal return, never
a thrown error. -/
theorem c6_empty_sentinels (now : Int) (u : Upstream)
    (htok : u.tokenOk = true) (hta : u.access_token.isSome)
    (horg : u.orgOk = true) :
    (u.orgData.getD [] = [] →
      runWarrantyCheck now u = .ok (csvHeader ++ "\n(No organizations found)")) ∧
    (∀ orgs, u.orgData = some orgs → orgs ≠ [] → reportRows now u orgs = [] →
      runWarrantyCheck now u
        = .ok (csvHeader ++ "\n(No devices expiring within 90 days)")) := by
  obtain ⟨tok, htok2⟩ := Option.isSome_iff_exists.mp hta
  constructor
  · intro hempty
    simp [runWarrantyCheck, htok, htok2, horg, hempty]
  · intro orgs hdata hne hrows
    have hgd : u.orgData.getD [] = orgs := by rw [hdata]; rfl
    simp [runWarrantyCheck, htok, htok2, horg, hgd, hne, hrows]

theorem c6_empty_sentinels_witness :
    runWarrantyCheck 0 (mkUpstream [] (fun _ => []))
      = .ok (csvHeader ++ "\n(No organizations found)") :=
  (c6_empty_sentinels 0 (mkUpstream [] (fun _ => [])) rfl rfl rfl).1 rfl

/-- C7: a failed token exchange, a token response without an access token, or a
failed organization listing each abort the run with the corresponding error;
with those steps succeeding the run always completes normally, and an
organization whose device fetch fails contributes no rows while the remaining
organizations are processed unchanged. -/
theorem c7_failure_policy (now : Int) (u : Upstream) :
    (u.tokenOk = false →
      runWarrantyCheck now u
        = .error ("Failed to get token: " ++ u.tokenStatusText)) ∧
    (u.tokenOk = true → u.access_token = none →
      runWarrantyCheck now u = .error "No access_token in token response") ∧
    (u.tokenOk = true → u.access_token.isSome → u.orgOk = false →
      runWarrantyCheck now u
        = .error ("Failed to fetch orgs: " ++ u.orgStatusText)) ∧
    (u.tokenOk = true → u.access_token.isSome → u.orgOk = true →
      ∃ s, runWarrantyCheck now u = .ok s) ∧
    (∀ orgs, reportRows now u orgs
      = reportRows now u (orgs.filter (fun o => u.devOk o.id))) := by
  refine ⟨?_, ?_, ?_, ?_, ?_⟩
  · intro htok
    simp [runWarrantyCheck, htok]
  · intro htok hta
    simp [runWarrantyCheck, htok, hta]
  · intro htok hta horg
    obtain ⟨tok, htok2⟩ := Option.isSome_iff_exists.mp hta
    simp [runWarrantyCheck, htok, htok2, horg]
  · intro htok hta horg
    obtain ⟨tok, htok2⟩ := Option.isSome_iff_exists.mp hta
    simp only [runWarrantyCheck, htok, htok2, horg, Bool.not_true,
      Bool.false_eq_true, if_false]
    split
    · exact ⟨_, rfl⟩
    · split
      · exact ⟨_, rfl⟩
      · exact ⟨_, rfl⟩
  · intro orgs
    induction orgs with
    | nil => rfl
    | cons o os ih =>
      by_cases h : u.devOk o.id
      · simp only [reportRows, List.filter_cons, h, if_true, List.flatMap_cons]
        exact congrArg (orgRows now (now + 90 * MS_PER_DAY) u o ++ ·) ih
      · have hrow : orgRows now (now + 90 * MS_PER_DAY) u o = [] := by
          simp [orgRows, h]
        simp only [reportRows, List.filter_cons, h, if_false, List.flatMap_cons,
          hrow, List.nil_append, Bool.false_eq_true]
        exact ih

theorem c7_failure_policy_witness :
    runWarrantyCheck 0
        { tokenOk := false, tokenStatusText := "401 - unauthorized",
          access_token := none, orgOk := true, orgStatusText := "",
          orgData := some [], devOk := fun _ => true, devData := fun _ => none }
      = .error ("Failed to get token: " ++ "401 - unauthorized") ∧
    (∃ s, runWarrantyCheck 0 (mkUpstream [⟨"1", "Acme"⟩] (fun _ => [])) = .ok s) :=
  ⟨(c7_failure_policy 0 _).1 rfl,
   (c7_failure_policy 0 (mkUpstream [⟨"1", "Acme"⟩] (fun _ => []))).2.2.2.1
     rfl rfl rfl⟩

/-- C1: for a device carrying a serial and an expiry date whose YYYY-MM-DD
truncation parses to midnight timestamp `e`, the run includes the device when
`e` is exactly `now + 90` days (the boundary is inclusive, decided by
`expiryDate <= now + 90 days`) and excludes it when `e` is `now + 91` days,
for every value of `now`: shown both for the row filter `deviceRow` and for
the full `runWarrantyCheck` output over a single-organization upstream. -/
theorem c1_ninety_day_boundary (now e : Int) (oid orgName : String)
    (device : Device) (hsn : device.sn ≠ "")
    (hparse : parseDateMs (device.expiry_date.take 10) = some e) :
    (e = now + 90 * MS_PER_DAY →
      ∃ row, deviceRow now (now + 90 * MS_PER_DAY) orgName device = some row ∧
        runWarrantyCheck now (mkUpstream [⟨oid, orgName⟩] (fun _ => [device]))
          = .ok (csvHeader ++ "\n" ++ row)) ∧
    (e = now + 91 * MS_PER_DAY →
      deviceRow now (now + 90 * MS_PER_DAY) orgName device = none ∧
      runWarrantyCheck now (mkUpstream [⟨oid, orgName⟩] (fun _ => [device]))
        = .ok (csvHeader ++ "\n(No devices expiring within 90 days)")) := by
  have hexp : device.expiry_date ≠ "" := by
    intro h
    rw [h] at hparse
    simp [parseDateMs] at hparse
  constructor
  · intro h90
    subst h90
    have hrow : deviceRow now (now + 90 * MS_PER_DAY) orgName device
        = some (quoteField orgName ++ "," ++ quoteField (normalizeSerial device.sn)
            ++ "," ++ quoteField (device.expiry_date.take 10) ++ ","
            ++ quoteField (toString (ceilDiv (now + 90 * MS_PER_DAY - now) MS_PER_DAY))
            ++ "," ++ quoteField (if device.expired then "YES" else "NO")) := by
      simp [deviceRow, hsn, hexp, hparse]
    refine ⟨quoteField orgName ++ "," ++ quoteField (normalizeSerial device.sn)
        ++ "," ++ quoteField (device.expiry_date.take 10) ++ ","
        ++ quoteField (toString (ceilDiv (now + 90 * MS_PER_DAY - now) MS_PER_DAY))
        ++ "," ++ quoteField (if device.expired then "YES" else "NO"),
      hrow, ?_⟩
    simp [runWarrantyCheck, mkUpstream, reportRows, orgRows,
      List.filterMap_cons, hrow]
    rfl
  · intro h91
    subst h91
    have hgt : ¬(now + 91 * MS_PER_DAY ≤ now + 90 * MS_PER_DAY) := by
      simp [MS_PER_DAY]
    have hrow : deviceRow now (now + 90 * MS_PER_DAY) orgName device = none := by
      simp [deviceRow, hsn, hexp, hparse, hgt]
    refine ⟨hrow, ?_⟩
    simp [runWarrantyCheck, mkUpstream, reportRows, orgRows,
      List.filterMap_cons, hrow]

theorem c1_ninety_day_boundary_witness :
    ∃ row, deviceRow 1725580800000 (1725580800000 + 90 * MS_PER_DAY) "Acme"
        ⟨"CD-99", "2024-12-05", false⟩ = some row ∧
      runWarrantyCheck 1725580800000
          (mkUpstream [⟨"1", "Acme"⟩]
            (fun _ => [⟨"CD-99", "2024-12-05", false⟩]))
        = .ok (csvHeader ++ "\n" ++ row) :=
  (c1_ninety_day_boundary 1725580800000 1733356800000 "1" "Acme"
    ⟨"CD-99", "2024-12-05", false⟩ (by decide) (by decide)).1 (by decide)

end PeplinkChecker
